import Mathlib

/-!
Verification development for the `openclaw-avatar` desktop command handler
(`src/apps/desktop/src-tauri/src/lib.rs`).

The file embeds the Rust source shallowly:
* `TtsRequest` / `TtsResponse` mirror the two serde records;
* `deserializeTtsRequest` mirrors serde deserialization of the inbound
  payload, with the two `#[serde(default = ...)]` fields;
* `buildOutboundRequest` mirrors the construction of the outbound HTTP
  request (URL, headers, JSON body fields) performed by `tts_synthesize`;
* `base64Encode` mirrors `base64::engine::general_purpose::STANDARD.encode`
  (standard alphabet, padded);
* `tts_synthesize` mirrors the response-translation logic, with the
  network modelled as a function from the outbound request to either a
  transport-error detail string or an `HttpResponse` (status code, reason
  phrase, and the outcomes of the two possible body reads);
* `greet` mirrors the greeting stub.
-/

/-- Record `TtsRequest` from lib.rs (fields after deserialization). -/
structure TtsRequest where
  text : String
  api_key : String
  reference_id : String
  model : String
  format : String
deriving Repr, DecidableEq

/-- Record `TtsResponse` from lib.rs. -/
structure TtsResponse where
  success : Bool
  audio_base64 : Option String
  error : Option String
deriving Repr, DecidableEq

/-- Mirrors `fn default_model() -> String` in lib.rs. -/
def default_model : String := "s1"

/-- Mirrors `fn default_format() -> String` in lib.rs. -/
def default_format : String := "mp3"

/-- An inbound JSON payload for the command, field by field; `none` means the
field is absent from the payload. -/
structure TtsPayload where
  text : Option String
  api_key : Option String
  reference_id : Option String
  model : Option String
  format : Option String
deriving Repr, DecidableEq

/-- Serde deserialization of the inbound payload into a `TtsRequest`:
the three undecorated fields are required (absence is a deserialization
error, modelled as `none`); `model` and `format` carry
`#[serde(default = ...)]` and fall back to `default_model` / `default_format`. -/
def deserializeTtsRequest (p : TtsPayload) : Option TtsRequest :=
  match p.text, p.api_key, p.reference_id with
  | some t, some k, some r =>
      some { text := t, api_key := k, reference_id := r,
             model := p.model.getD default_model,
             format := p.format.getD default_format }
  | _, _, _ => none

/-- The outbound HTTP request assembled by `tts_synthesize`: URL, headers,
and the JSON body modelled as its list of string fields. -/
structure OutboundRequest where
  url : String
  headers : List (String × String)
  bodyFields : List (String × String)
deriving Repr, DecidableEq

/-- Mirrors the request construction in `tts_synthesize`: the
`serde_json::json!` body with exactly `text`, `reference_id`, `format`,
the fixed URL, and the `Authorization` / `Content-Type` headers. -/
def buildOutboundRequest (request : TtsRequest) : OutboundRequest :=
  { url := "https://api.fish.audio/v1/tts",
    headers := [("Authorization", "Bearer " ++ request.api_key),
                ("Content-Type", "application/json")],
    bodyFields := [("text", request.text),
                   ("reference_id", request.reference_id),
                   ("format", request.format)] }

/-- Character of the standard base64 alphabet at index `n` (mirrors the
`STANDARD` engine alphabet of the `base64` crate). -/
def b64Char (n : Nat) : Char :=
  "ABCDEFGHIJKLMNOPQRSTUVWXYZabcdefghijklmnopqrstuvwxyz0123456789+/".data.getD n 'A'

/-- Standard padded base64 of a byte list, chunked three bytes at a time
(mirrors `STANDARD.encode`); bytes are `Nat`s taken mod 256. -/
def base64Chunks : List Nat → List Char
  | [] => []
  | [a] =>
      let n := a % 256
      [b64Char (n / 4), b64Char (n % 4 * 16), '=', '=']
  | [a, b] =>
      let x := a % 256 * 256 + b % 256
      [b64Char (x / 1024), b64Char (x / 16 % 64), b64Char (x % 16 * 4), '=']
  | a :: b :: c :: rest =>
      let x := a % 256 * 65536 + b % 256 * 256 + c % 256
      b64Char (x / 262144) :: b64Char (x / 4096 % 64) :: b64Char (x / 64 % 64) ::
        b64Char (x % 64) :: base64Chunks rest

/-- Mirrors `STANDARD.encode(&bytes)` from the `base64` crate. -/
def base64Encode (bytes : List Nat) : String :=
  ⟨base64Chunks bytes⟩

/-- An HTTP response as observed by `tts_synthesize`: numeric status code,
reason phrase (the `StatusCode` Display is `code ++ " " ++ reason`), and the
outcome of each of the two possible body reads (`bytes()` and `text()`),
each either a value or an error detail string. -/
structure HttpResponse where
  code : Nat
  reason : String
  bytesRead : Except String (List Nat)
  textRead : Except String String
deriving Repr

/-- Mirrors `StatusCode::is_success` (`200 ≤ code < 300`). -/
def isSuccessStatus (code : Nat) : Bool :=
  decide (200 ≤ code) && decide (code < 300)

/-- Mirrors the Display of `StatusCode` used by `format!`: the numeric code
followed by the reason phrase. -/
def statusDisplay (r : HttpResponse) : String :=
  Nat.repr r.code ++ " " ++ r.reason

/-- Mirrors `async fn tts_synthesize`: builds the outbound request, hands it
to the network (`net`, which either fails with a transport detail string or
yields an `HttpResponse`), and translates the outcome exactly as the Rust
`match` does. -/
def tts_synthesize (request : TtsRequest)
    (net : OutboundRequest → Except String HttpResponse) : TtsResponse :=
  match net (buildOutboundRequest request) with
  | Except.ok response =>
      if isSuccessStatus response.code then
        match response.bytesRead with
        | Except.ok bytes =>
            { success := true,
              audio_base64 := some (base64Encode bytes),
              error := none }
        | Except.error e =>
            { success := false,
              audio_base64 := none,
              error := some ("读取响应失败: " ++ e) }
      else
        { success := false,
          audio_base64 := none,
          error := some ("API错误 " ++ statusDisplay response ++ ": " ++
                          (response.textRead.toOption.getD "")) }
  | Except.error e =>
      { success := false,
        audio_base64 := none,
        error := some ("请求失败: " ++ e) }

/-- Mirrors `fn greet`: `format!("Hello, {}! You\x27ve been greeted from Rust!", name)`. -/
def greet (name : String) : String :=
  s!"Hello, {name}! You\x27ve been greeted from Rust!"

/-- Containment of `sub` in `s` as a contiguous run of characters. -/
def strContains (s sub : String) : Prop :=
  ∃ pre post : List Char, s.data = pre ++ sub.data ++ post

/-- The string mentions some HTTP status code: the decimal representation of
some number in `100..599` occurs in it as a contiguous run of characters. -/
def containsStatusCode (s : String) : Prop :=
  ∃ n : Nat, 100 ≤ n ∧ n ≤ 599 ∧ strContains s (Nat.repr n)

/-- Every digit character produced by `Nat.digitChar` below base 10 satisfies
`Char.isDigit`. -/
theorem digitChar_isDigit : ∀ m : Nat, m < 10 → (Nat.digitChar m).isDigit = true := by
  decide

/-- All characters produced by `Nat.toDigitsCore` in base 10 are digits,
provided the accumulator already holds only digits. -/
theorem toDigitsCore_all_digits (fuel : Nat) :
    ∀ (n : Nat) (acc : List Char), (∀ c ∈ acc, c.isDigit = true) →
      ∀ c ∈ Nat.toDigitsCore 10 fuel n acc, c.isDigit = true := by
  induction fuel with
  | zero =>
      intro n acc hacc c hc
      simp only [Nat.toDigitsCore] at hc
      exact hacc c hc
  | succ fuel ih =>
      intro n acc hacc c hc
      simp only [Nat.toDigitsCore] at hc
      split at hc
      · rcases List.mem_cons.mp hc with h1 | h1
        · subst h1; exact digitChar_isDigit _ (Nat.mod_lt _ (by decide))
        · exact hacc c h1
      · refine ih (n / 10) (Nat.digitChar (n % 10) :: acc) ?_ c hc
        intro d hd
        rcases List.mem_cons.mp hd with h1 | h1
        · subst h1; exact digitChar_isDigit _ (Nat.mod_lt _ (by decide))
        · exact hacc d h1

/-- `Nat.toDigitsCore` never shrinks its accumulator. -/
theorem toDigitsCore_le_length (fuel : Nat) :
    ∀ (n : Nat) (acc : List Char),
      acc.length ≤ (Nat.toDigitsCore 10 fuel n acc).length := by
  induction fuel with
  | zero => intro n acc; simp [Nat.toDigitsCore]
  | succ fuel ih =>
      intro n acc
      simp only [Nat.toDigitsCore]
      split
      · simp
      · exact le_trans (by simp) (ih (n / 10) (Nat.digitChar (n % 10) :: acc))

/-- The decimal representation of a natural number is never empty. -/
theorem repr_data_ne_nil (n : Nat) : (Nat.repr n).data ≠ [] := by
  have hdata : (Nat.repr n).data = Nat.toDigits 10 n := rfl
  have h1 : 1 ≤ (Nat.toDigits 10 n).length := by
    simp only [Nat.toDigits, Nat.toDigitsCore]
    split
    · simp
    · exact le_trans (by simp) (toDigitsCore_le_length n (n / 10) [Nat.digitChar (n % 10)])
  intro h
  rw [hdata] at h
  rw [h] at h1
  simp at h1

/-- Every character of the decimal representation of a natural number is a
digit. -/
theorem repr_all_digits (n : Nat) : ∀ c ∈ (Nat.repr n).data, c.isDigit = true := by
  have hdata : (Nat.repr n).data = Nat.toDigits 10 n := rfl
  rw [hdata]
  simp only [Nat.toDigits]
  exact toDigitsCore_all_digits (n + 1) n [] (by simp)

/-- The decimal representation of a natural number holds a digit character. -/
theorem repr_has_digit (n : Nat) : ∃ c ∈ (Nat.repr n).data, c.isDigit = true := by
  rcases List.exists_mem_of_ne_nil _ (repr_data_ne_nil n) with ⟨c, hc⟩
  exact ⟨c, hc, repr_all_digits n c hc⟩

/-- Concrete request fixture used by witnesses (the spec scenario request). -/
def req0 : TtsRequest :=
  { text := "hello", api_key := "k1", reference_id := "ref1",
    model := "s1", format := "mp3" }

/-- C1: whenever the endpoint returns a 2xx response whose body bytes are
read successfully, the result has `success = true`, `audio_base64` equal to
the standard padded base64 encoding of the bytes, and no error. -/
theorem tts_success_returns_base64 (request : TtsRequest)
    (net : OutboundRequest → Except String HttpResponse)
    (resp : HttpResponse) (B : List Nat)
    (hnet : net (buildOutboundRequest request) = Except.ok resp)
    (hcode : isSuccessStatus resp.code = true)
    (hbytes : resp.bytesRead = Except.ok B) :
    tts_synthesize request net =
      { success := true, audio_base64 := some (base64Encode B), error := none } := by
  simp [tts_synthesize, hnet, hcode, hbytes]

/-- Witness for C1: the spec scenario with body bytes `[0x01, 0x02]` yields
`audio_base64 = "AQI="`. -/
theorem tts_success_returns_base64_witness :
    tts_synthesize req0 (fun _ => Except.ok ⟨200, "OK", Except.ok [1, 2], Except.ok ""⟩) =
      { success := true, audio_base64 := some "AQI=", error := none } := by
  have h := tts_success_returns_base64 req0
    (fun _ => Except.ok ⟨200, "OK", Except.ok [1, 2], Except.ok ""⟩)
    ⟨200, "OK", Except.ok [1, 2], Except.ok ""⟩ [1, 2] rfl (by decide) rfl
  rw [h]
  decide

/-- C2: for every outcome, exactly one of `audio_base64` and `error` is
populated, and which one is governed by the `success` flag. -/
theorem tts_exactly_one_populated (request : TtsRequest)
    (net : OutboundRequest → Except String HttpResponse) :
    ((tts_synthesize request net).audio_base64.isSome =
        (tts_synthesize request net).success) ∧
    ((tts_synthesize request net).error.isSome =
        !(tts_synthesize request net).success) := by
  cases hnet : net (buildOutboundRequest request) with
  | error e => simp [tts_synthesize, hnet]
  | ok resp =>
      by_cases hcode : isSuccessStatus resp.code = true
      · cases hbytes : resp.bytesRead with
        | ok bytes => simp [tts_synthesize, hnet, hcode, hbytes]
        | error e => simp [tts_synthesize, hnet, hcode, hbytes]
      · simp [tts_synthesize, hnet, hcode]

/-- C8: `greet` returns exactly the advertised formatted string, as a pure
total function of its argument. -/
theorem greet_formats (name : String) :
    greet name = "Hello, " ++ name ++ "! You\x27ve been greeted from Rust!" := rfl

/-- C9: the translation is total: for every network outcome it produces a
`TtsResponse`, and on every failure path the `error` field is populated
rather than an unhandled fault escaping. -/
theorem tts_total_every_failure_populated (request : TtsRequest)
    (net : OutboundRequest → Except String HttpResponse) :
    ((tts_synthesize request net).success = true ∧
        (tts_synthesize request net).error = none) ∨
    ((tts_synthesize request net).success = false ∧
        ((tts_synthesize request net).error.isSome = true)) := by
  cases hnet : net (buildOutboundRequest request) with
  | error e => right; simp [tts_synthesize, hnet]
  | ok resp =>
      by_cases hcode : isSuccessStatus resp.code = true
      · cases hbytes : resp.bytesRead with
        | ok bytes => left; simp [tts_synthesize, hnet, hcode, hbytes]
        | error e => right; simp [tts_synthesize, hnet, hcode, hbytes]
      · right; simp [tts_synthesize, hnet, hcode]

/-- C10: deserialization of the inbound payload fails exactly when one of
the required fields `text`, `api_key`, `reference_id` is absent; `model` and
`format` may be omitted freely. -/
theorem deserialize_rejects_missing_required (p : TtsPayload) :
    deserializeTtsRequest p = none ↔
      (p.text = none ∨ p.api_key = none ∨ p.reference_id = none) := by
  obtain ⟨t, k, r, m, f⟩ := p
  cases t <;> cases k <;> cases r <;> simp [deserializeTtsRequest]

/-- Witness for C10: a payload lacking `text` (but carrying the other
required fields and no optional ones) is rejected. -/
theorem deserialize_rejects_missing_required_witness :
    deserializeTtsRequest ⟨none, some "k1", some "ref1", none, none⟩ = none := by
  exact (deserialize_rejects_missing_required
    ⟨none, some "k1", some "ref1", none, none⟩).mpr (Or.inl rfl)

/-- C3: a non-2xx response with readable text body yields `success = false`
and an error message containing both the numeric status code and the body
text. -/
theorem tts_api_error_mentions_status_and_body (request : TtsRequest)
    (net : OutboundRequest → Except String HttpResponse)
    (resp : HttpResponse) (T : String)
    (hnet : net (buildOutboundRequest request) = Except.ok resp)
    (hcode : isSuccessStatus resp.code = false)
    (htext : resp.textRead = Except.ok T) :
    (tts_synthesize request net).success = false ∧
    ∃ msg, (tts_synthesize request net).error = some msg ∧
      strContains msg (Nat.repr resp.code) ∧ strContains msg T := by
  have hresp : tts_synthesize request net =
      { success := false, audio_base64 := none,
        error := some ("API错误 " ++ statusDisplay resp ++ ": " ++ T) } := by
    simp [tts_synthesize, hnet, hcode, htext, Except.toOption]
  rw [hresp]
  refine ⟨rfl, _, rfl, ?_, ?_⟩
  · refine ⟨"API错误 ".data, " ".data ++ resp.reason.data ++ ": ".data ++ T.data, ?_⟩
    simp [statusDisplay, String.data_append]
  · refine ⟨("API错误 " ++ statusDisplay resp ++ ": ").data, [], ?_⟩
    simp [String.data_append]

/-- Witness for C3: the spec scenario, a 401 response with body
`"invalid key"`. -/
theorem tts_api_error_mentions_status_and_body_witness :
    (tts_synthesize req0
        (fun _ => Except.ok ⟨401, "Unauthorized", Except.error "x",
          Except.ok "invalid key"⟩)).success = false ∧
    ∃ msg, (tts_synthesize req0
        (fun _ => Except.ok ⟨401, "Unauthorized", Except.error "x",
          Except.ok "invalid key"⟩)).error = some msg ∧
      strContains msg (Nat.repr 401) ∧ strContains msg "invalid key" :=
  tts_api_error_mentions_status_and_body req0
    (fun _ => Except.ok ⟨401, "Unauthorized", Except.error "x", Except.ok "invalid key"⟩)
    ⟨401, "Unauthorized", Except.error "x", Except.ok "invalid key"⟩
    "invalid key" rfl (by decide) rfl

/-- C4: a transport-level failure whose underlying detail holds no digit
characters yields `success = false` and a non-empty error message that
mentions no HTTP status code. -/
theorem tts_transport_error_no_status (request : TtsRequest)
    (net : OutboundRequest → Except String HttpResponse) (d : String)
    (hnet : net (buildOutboundRequest request) = Except.error d)
    (hd : ∀ c ∈ d.data, c.isDigit = false) :
    (tts_synthesize request net).success = false ∧
    ∃ msg, (tts_synthesize request net).error = some msg ∧ msg ≠ "" ∧
      ¬ containsStatusCode msg := by
  have hresp : tts_synthesize request net =
      { success := false, audio_base64 := none,
        error := some ("请求失败: " ++ d) } := by
    simp [tts_synthesize, hnet]
  rw [hresp]
  refine ⟨rfl, _, rfl, ?_, ?_⟩
  · intro h
    have h2 : ("请求失败: " ++ d).data = ("" : String).data := congrArg String.data h
    rw [String.data_append] at h2
    have h3 := List.append_eq_nil.mp h2
    exact absurd h3.1 (by decide)
  · rintro ⟨n, _, _, pre, post, heq⟩
    rw [String.data_append] at heq
    rcases repr_has_digit n with ⟨c, hc, hdig⟩
    have hmem : c ∈ "请求失败: ".data ++ d.data := by
      rw [heq]
      simp [hc]
    rcases List.mem_append.mp hmem with h1 | h1
    · have hnd : c.isDigit = false := by
        have hall : ∀ x ∈ "请求失败: ".data, x.isDigit = false := by decide
        exact hall c h1
      rw [hnd] at hdig
      exact Bool.false_ne_true hdig
    · rw [hd c h1] at hdig
      exact Bool.false_ne_true hdig

/-- Witness for C4: a connection-refused transport failure. -/
theorem tts_transport_error_no_status_witness :
    (tts_synthesize req0 (fun _ => Except.error "connection refused")).success = false ∧
    ∃ msg, (tts_synthesize req0
        (fun _ => Except.error "connection refused")).error = some msg ∧
      msg ≠ "" ∧ ¬ containsStatusCode msg :=
  tts_transport_error_no_status req0 (fun _ => Except.error "connection refused")
    "connection refused" rfl (by decide)

/-- C5 counterexample: the claimed English error formats do not match the
code, whose messages carry Chinese prefixes: a concrete transport failure
produces `"请求失败: boom"`, not `"request failed: boom"`. -/
theorem tts_error_message_english_false :
    (tts_synthesize req0 (fun _ => Except.error "boom")).error =
        some "请求失败: boom" ∧
    (tts_synthesize req0 (fun _ => Except.error "boom")).error ≠
        some "request failed: boom" := by
  decide

/-- C5 (amended): every failure path produces the fixed format of the code,
with Chinese prefixes: transport failure gives `"请求失败: <detail>"`, a
non-2xx response gives `"API错误 <status display>: <body text, empty when
unreadable>"`, and a failed byte read after a 2xx status gives
`"读取响应失败: <detail>"`. -/
theorem tts_error_message_formats (request : TtsRequest)
    (net : OutboundRequest → Except String HttpResponse) :
    (∀ d, net (buildOutboundRequest request) = Except.error d →
        tts_synthesize request net =
          { success := false, audio_base64 := none,
            error := some ("请求失败: " ++ d) }) ∧
    (∀ resp, net (buildOutboundRequest request) = Except.ok resp →
        isSuccessStatus resp.code = false →
        tts_synthesize request net =
          { success := false, audio_base64 := none,
            error := some ("API错误 " ++ statusDisplay resp ++ ": " ++
                            resp.textRead.toOption.getD "") }) ∧
    (∀ resp e, net (buildOutboundRequest request) = Except.ok resp →
        isSuccessStatus resp.code = true → resp.bytesRead = Except.error e →
        tts_synthesize request net =
          { success := false, audio_base64 := none,
            error := some ("读取响应失败: " ++ e) }) := by
  refine ⟨?_, ?_, ?_⟩
  · intro d hnet
    simp [tts_synthesize, hnet]
  · intro resp hnet hcode
    simp [tts_synthesize, hnet, hcode]
  · intro resp e hnet hcode hbytes
    simp [tts_synthesize, hnet, hcode, hbytes]

/-- Witness for the amended C5: a concrete transport failure yields the
Chinese-prefixed message. -/
theorem tts_error_message_formats_witness :
    tts_synthesize req0 (fun _ => Except.error "no route to host") =
      { success := false, audio_base64 := none,
        error := some "请求失败: no route to host" } := by
  have h := (tts_error_message_formats req0
    (fun _ => Except.error "no route to host")).1 "no route to host" rfl
  rw [h]
  decide

/-- C6: the outbound JSON body holds exactly the fields `text`,
`reference_id` and `format` with the request values; neither `model` nor
`api_key` is a body field, and `api_key` appears only in the
`Authorization: Bearer` header. -/
theorem outbound_body_exact_fields (request : TtsRequest) :
    (buildOutboundRequest request).bodyFields =
      [("text", request.text), ("reference_id", request.reference_id),
       ("format", request.format)] ∧
    "model" ∉ (buildOutboundRequest request).bodyFields.map Prod.fst ∧
    "api_key" ∉ (buildOutboundRequest request).bodyFields.map Prod.fst ∧
    (buildOutboundRequest request).headers =
      [("Authorization", "Bearer " ++ request.api_key),
       ("Content-Type", "application/json")] := by
  refine ⟨rfl, ?_, ?_, rfl⟩
  · intro h
    simp [buildOutboundRequest] at h
  · intro h
    simp [buildOutboundRequest] at h

/-- Witness for C6 at the fixture request. -/
theorem outbound_body_exact_fields_witness :
    (buildOutboundRequest req0).bodyFields =
      [("text", "hello"), ("reference_id", "ref1"), ("format", "mp3")] ∧
    "model" ∉ (buildOutboundRequest req0).bodyFields.map Prod.fst ∧
    "api_key" ∉ (buildOutboundRequest req0).bodyFields.map Prod.fst ∧
    (buildOutboundRequest req0).headers =
      [("Authorization", "Bearer k1"), ("Content-Type", "application/json")] :=
  outbound_body_exact_fields req0

/-- C7: when the required fields are present, deserialization succeeds; an
absent `model` defaults to `"s1"`, an absent `format` defaults to `"mp3"`,
and the resulting `format` value is the one placed in the outbound JSON
body's `format` field. -/
theorem deserialize_defaults_propagate (p : TtsPayload) (t k r : String)
    (ht : p.text = some t) (hk : p.api_key = some k)
    (hr : p.reference_id = some r) :
    ∃ req : TtsRequest, deserializeTtsRequest p = some req ∧
      (p.model = none → req.model = "s1") ∧
      (p.format = none → req.format = "mp3") ∧
      ("format", req.format) ∈ (buildOutboundRequest req).bodyFields := by
  refine ⟨{ text := t, api_key := k, reference_id := r,
            model := p.model.getD default_model,
            format := p.format.getD default_format }, ?_, ?_, ?_, ?_⟩
  · simp [deserializeTtsRequest, ht, hk, hr]
  · intro hm
    simp [hm, default_model]
  · intro hf
    simp [hf, default_format]
  · simp [buildOutboundRequest]

/-- Witness for C7: the spec scenario payload with `model` and `format`
omitted deserializes with the defaults. -/
theorem deserialize_defaults_propagate_witness :
    ∃ req : TtsRequest,
      deserializeTtsRequest ⟨some "hello", some "k1", some "ref1", none, none⟩ =
        some req ∧
      req.model = "s1" ∧ req.format = "mp3" ∧
      ("format", req.format) ∈ (buildOutboundRequest req).bodyFields := by
  rcases deserialize_defaults_propagate
      ⟨some "hello", some "k1", some "ref1", none, none⟩
      "hello" "k1" "ref1" rfl rfl rfl with ⟨req, h1, h2, h3, h4⟩
  exact ⟨req, h1, h2 rfl, h3 rfl, h4⟩

